import Mathlib

/-
Verification of the MagicPod/TestRail integration scripts.
The definitions below are a shallow embedding of src/run_magicpod.py:
the JSON data model, the run-id resolver get_run_id_from_testplan,
the completion-polling loop of run_magicpod_tests, the per-item
reporting loop, and the environment validation at startup.
-/

/-- JSON values as produced by json.load / response.json in the source.
Numbers are modelled as integers, which covers every value the claims
touch (identifiers, elapsed seconds, counters). -/
inductive JsonVal where
  | null
  | bool (b : Bool)
  | num (n : Int)
  | str (s : String)
  | arr (elems : List JsonVal)
  | obj (fields : List (String × JsonVal))

/-- Python truthiness of a JSON value, as used by conditions such as
`if testplan['entries']:` and `if not case_id:` in the source. -/
def truthy : JsonVal → Bool
  | .null => false
  | .bool b => b
  | .num n => n != 0
  | .str s => !s.isEmpty
  | .arr xs => !xs.isEmpty
  | .obj fs => !fs.isEmpty

/-- Dictionary lookup: the value of a key in a JSON object field list,
modelling both `key in d` (isSome) and `d[key]` / `d.get(key)`. -/
def lookupKey : List (String × JsonVal) → String → Option JsonVal
  | [], _ => none
  | (k, v) :: rest, key => if k = key then some v else lookupKey rest key

/-- Python exceptions that the resolver and the orchestration can raise.
shapeMismatch is the ValueError raised at line 107 of run_magicpod.py
(the ShapeMismatchError of the spec); the others are the interpreter
errors KeyError, TypeError and AttributeError. -/
inductive PyErr where
  | shapeMismatch
  | keyError (k : String)
  | typeError
  | attributeError
deriving DecidableEq

/-- Body of the entries loop of get_run_id_from_testplan for a single
entry (lines 90 to 96 of run_magicpod.py): `entry.get('name', ...)`
raises AttributeError on a non-dict entry; then, when `'runs' in entry
and entry['runs']` holds, `entry['runs'][0]['id']` is returned, where a
first run element without an id key raises KeyError, a dict raises
KeyError on the integer subscript, and a non-subscriptable or string
run sequence raises TypeError. An ok none result means the loop
continues with the next entry. -/
def entryRunId (entry : JsonVal) : Except PyErr (Option JsonVal) :=
  match entry with
  | .obj gs =>
      match lookupKey gs "runs" with
      | none => .ok none
      | some runs =>
          if truthy runs then
            match runs with
            | .arr (r :: _) =>
                match r with
                | .obj rfs =>
                    match lookupKey rfs "id" with
                    | some v => .ok (some v)
                    | none => .error (.keyError "id")
                | _ => .error .typeError
            | .arr [] => .ok none
            | .str _ => .error .typeError
            | .obj _ => .error (.keyError "0")
            | _ => .error .typeError
          else .ok none
  | _ => .error .attributeError

/-- The for-loop over entries in get_run_id_from_testplan: the first
entry that yields a run id returns it, an exception aborts the loop,
and a loop that falls through yields ok none. -/
def entriesLoop : List JsonVal → Except PyErr (Option JsonVal)
  | [] => .ok none
  | e :: rest =>
      match entryRunId e with
      | .error err => .error err
      | .ok (some v) => .ok (some v)
      | .ok none => entriesLoop rest

/-- The entries shape of get_run_id_from_testplan (lines 89 to 96):
when `'entries' in testplan and testplan['entries']` holds, iterate the
entries value. Iterating a truthy string or dict yields strings, on
which `.get` raises AttributeError; iterating a number or bool raises
TypeError. When the key is absent or its value falsy the step is
skipped (ok none). -/
def entriesStep (fs : List (String × JsonVal)) : Except PyErr (Option JsonVal) :=
  match lookupKey fs "entries" with
  | none => .ok none
  | some entries =>
      if truthy entries then
        match entries with
        | .arr es => entriesLoop es
        | .str _ => .error .attributeError
        | .obj _ => .error .attributeError
        | _ => .error .typeError
      else .ok none

/-- get_run_id_from_testplan (lines 81 to 111 of run_magicpod.py): try
the entries shape, then the flat shape requiring both an id and a name
key, then raise the ValueError at line 107. The try/except wrapper in
the source only logs and re-raises, so errors propagate unchanged. -/
def get_run_id_from_testplan (tp : JsonVal) : Except PyErr JsonVal :=
  match tp with
  | .obj fs =>
      match entriesStep fs with
      | .error e => .error e
      | .ok (some v) => .ok v
      | .ok none =>
          match lookupKey fs "id", lookupKey fs "name" with
          | some v, some _ => .ok v
          | _, _ => .error .shapeMismatch
  | _ => .error .shapeMismatch

/-- Outcome of one fetch attempt `magicpod.get_test_result(...)` inside
the polling loop: either the parsed JSON snapshot, or a raised
transport error (network failure or non-2xx status). -/
inductive FetchOutcome where
  | ok (snap : JsonVal)
  | err

/-- The value of `result.get("status", "unknown")` at line 160: some
value when the snapshot is a dict, none when `.get` raises
AttributeError on a non-dict snapshot (the exception is then caught by
the except clause of the loop). -/
def snapStatus (snap : JsonVal) : Option JsonVal :=
  match snap with
  | .obj fs => some ((lookupKey fs "status").getD (.str "unknown"))
  | _ => none

/-- The membership test `status in ["succeeded", "failed", "aborted"]`
at line 167. -/
def isTerminalStatus : JsonVal → Bool
  | .str "succeeded" => true
  | .str "failed" => true
  | .str "aborted" => true
  | _ => false

/-- Whether a fetched snapshot makes the loop break at line 169. -/
def snapTerminal (snap : JsonVal) : Bool :=
  match snapStatus snap with
  | some st => isTerminalStatus st
  | none => false

/-- Whether a fetch attempt breaks the loop: a transport error never
does, and a snapshot only when its status is terminal. -/
def terminalOutcome : FetchOutcome → Bool
  | .ok snap => snapTerminal snap
  | .err => false

/-- A fetch attempt that returns a snapshot with a non-terminal
status. -/
def okNonTerminal : FetchOutcome → Bool
  | .ok snap => !snapTerminal snap
  | .err => false

/-- Observable result of the polling phase (lines 150 to 181):
the value of the local variable `result` after the loop (none when no
fetch ever returned a snapshot, in which case the variable is unbound),
whether the timeout message at lines 180 to 181 is printed, and how
many fetch attempts were performed. -/
structure PollResult where
  snapshot : Option JsonVal
  timedOut : Bool
  fetches : Nat

/-- The while loop at lines 157 to 177 of run_magicpod_tests, with the
constants max_wait_time = 1800 and poll_interval = 30 of the source.
Arguments: remaining fuel, current wait_time, index of the next fetch
attempt, and the last snapshot assigned to `result`. Each loop body
performs one fetch; a transport error is caught and the loop retries
after advancing wait_time; a snapshot with a terminal status is
returned at once; any other snapshot (including a non-dict one, whose
status read raises inside the try and is caught) is recorded in
`result` and the loop retries. The fuel only bounds the recursion: the
wrapper run_poll passes fuel 61, which exceeds the at most 60 body
executions plus the final condition check, so the fuel-0 clause
(matching the loop exit) is never reached. -/
def pollFuel (fetch : Nat → FetchOutcome) :
    Nat → Nat → Nat → Option JsonVal → PollResult
  | 0, _, k, last => ⟨last, true, k⟩
  | fuel + 1, wait_time, k, last =>
      if wait_time < 1800 then
        match fetch k with
        | .ok snap =>
            if snapTerminal snap then ⟨some snap, false, k + 1⟩
            else pollFuel fetch fuel (wait_time + 30) (k + 1) (some snap)
        | .err => pollFuel fetch fuel (wait_time + 30) (k + 1) last
      else ⟨last, true, k⟩

/-- The polling phase as run by run_magicpod_tests: wait_time starts at
0 and the loop runs until a terminal snapshot or wait_time reaches
1800. -/
def run_poll (fetch : Nat → FetchOutcome) : PollResult :=
  pollFuel fetch 61 0 0 none

/-- The value held by the loop variable `result` after n fetch
attempts starting at index k: the snapshot of the last attempt that
returned one, or the initial value when none did. -/
def lastOf (fetch : Nat → FetchOutcome) : Nat → Nat → Option JsonVal → Option JsonVal
  | _, 0, last => last
  | k, n + 1, last =>
      match fetch k with
      | .ok snap => lastOf fetch (k + 1) n (some snap)
      | .err => lastOf fetch (k + 1) n last

/-- Formatting of the elapsed field inside
TestRailAPIWrapper.add_result_for_case (line 77):
`f"{elapsed}s" if elapsed and elapsed > 0 else "1s"`. A falsy elapsed
short-circuits to "1s"; a truthy number is compared with 0; a truthy
bool compares as an integer in Python; comparing a truthy string,
array or object with 0 raises TypeError before any network call. -/
def elapsedFmt (elapsed : JsonVal) : Except PyErr String :=
  if truthy elapsed then
    match elapsed with
    | .num n => .ok (if 0 < n then toString n ++ "s" else "1s")
    | .bool _ => .ok "Trues"
    | _ => .error .typeError
  else .ok "1s"

/-- The case id used for the item at loop index i (lines 208 to 212):
`test_result.get("test_case_id")` defaulting to None, replaced by the
sequential value i + 1 when falsy. -/
def caseIdOf (fs : List (String × JsonVal)) (i : Nat) : JsonVal :=
  if truthy ((lookupKey fs "test_case_id").getD .null) then
    (lookupKey fs "test_case_id").getD .null
  else .num ((i : Int) + 1)

/-- Outcome of one iteration of the reporting loop (lines 205 to 250).
attempted records that testrail.add_result_for_case was invoked with
the given case id; netReached tells whether the HTTP POST inside it
was reached (false when elapsed formatting raised TypeError first) and
success whether the whole call returned without exception. itemError
records an exception before the call, namely the AttributeError of
`.get` on a non-dict item. Every exception of the body is caught by
the per-item except clause. -/
inductive ItemOutcome where
  | attempted (case_id : JsonVal) (netReached : Bool) (success : Bool)
  | itemError

/-- Body of the reporting loop for the item at index i, where netOk
tells whether the HTTP POST for this item would succeed. -/
def reportItem (netOk : Bool) (i : Nat) (item : JsonVal) : ItemOutcome :=
  match item with
  | .obj fs =>
      match elapsedFmt ((lookupKey fs "elapsed_time").getD (.num 0)) with
      | .error _ => .attempted (caseIdOf fs i) false false
      | .ok _ => .attempted (caseIdOf fs i) true netOk
  | _ => .itemError

/-- The reporting loop (lines 205 to 250): returns success_count,
error_count and the list of per-item outcomes. A failed item only
increments error_count and the loop continues with the next item. -/
def reportLoop (netOk : Nat → Bool) : Nat → List JsonVal → Nat × Nat × List ItemOutcome
  | _, [] => (0, 0, [])
  | i, item :: rest =>
      let out := reportItem (netOk i) i item
      let r := reportLoop netOk (i + 1) rest
      match out with
      | .attempted _ _ true => (r.1 + 1, r.2.1, out :: r.2.2)
      | .attempted _ _ false => (r.1, r.2.1 + 1, out :: r.2.2)
      | .itemError => (r.1, r.2.1 + 1, out :: r.2.2)

/-- The call `v.get(key, dflt)`: some value for a dict, none for the
AttributeError raised on anything else. -/
def getDefault (v : JsonVal) (key : String) (dflt : JsonVal) : Option JsonVal :=
  match v with
  | .obj fs => some ((lookupKey fs key).getD dflt)
  | _ => none

/-- The subscript `v[key]` with a string key: KeyError when the key is
absent from a dict, TypeError on values that do not support string
subscripts. -/
def subscript (v : JsonVal) (key : String) : Except PyErr JsonVal :=
  match v with
  | .obj fs =>
      match lookupKey fs key with
      | some x => .ok x
      | none => .error (.keyError key)
  | _ => .error .typeError

/-- The iteration `enumerate(test_results)` at line 205: a list is
iterated as is, a string yields its characters and a dict its keys
(each a string), anything else raises TypeError. -/
def enumerateItems : JsonVal → Except PyErr (List JsonVal)
  | .arr xs => .ok xs
  | .str s => .ok (s.toList.map (fun c => .str (String.mk [c])))
  | .obj fs => .ok (fs.map (fun p => .str p.1))
  | _ => .error .typeError

/-- Errors with which run_magicpod_tests can terminate. configError is
the ValueError of line 125 listing the missing environment variables;
startFailed a raised transport error of magicpod.run_test;
startKeyError an error of the subscript batch_run["batch_run_number"];
fileNotFound the FileNotFoundError of line 187; resolveFailed an error
propagated from get_run_id_from_testplan; unboundLocalResult the
unbound-variable error at line 199 when no fetch ever assigned
`result`; snapshotGetFailed the AttributeError of
result.get("test_results", []) on a non-dict snapshot;
resultsNotIterable the TypeError of enumerate on a non-iterable
test_results value. -/
inductive RunError where
  | configError (vars : List String)
  | startFailed
  | startKeyError (e : PyErr)
  | fileNotFound
  | resolveFailed (e : PyErr)
  | unboundLocalResult
  | snapshotGetFailed
  | resultsNotIterable

/-- Summary printed at lines 253 to 259 when the run completes. -/
structure RunSummary where
  success_count : Nat
  error_count : Nat
  total : Nat
  run_id : JsonVal
  outcomes : List ItemOutcome

/-- The reporting phase of run_magicpod_tests (lines 199 to 259):
read test_results from the final snapshot, iterate it and update
TestRail per item. -/
def reportPhase (netOk : Nat → Bool) (run_id snap : JsonVal) :
    Except RunError RunSummary :=
  match getDefault snap "test_results" (.arr []) with
  | none => .error .snapshotGetFailed
  | some tr =>
      match enumerateItems tr with
      | .error _ => .error .resultsNotIterable
      | .ok items =>
          let r := reportLoop netOk 0 items
          .ok { success_count := r.1, error_count := r.2.1,
                total := items.length, run_id := run_id, outcomes := r.2.2 }

/-- The required environment variables of lines 117 to 121. -/
def required_vars : List String :=
  ["MAGICPOD_API_TOKEN", "MAGICPOD_ORGANIZATION_NAME",
   "MAGICPOD_PROJECT_NAME", "MAGICPOD_TEST_SETTING_ID",
   "TESTRAIL_URL", "TESTRAIL_USER", "TESTRAIL_PASSWORD"]

/-- Line 123: the required variables whose value is unset or falsy
(os.getenv yields None when unset, and an empty string is falsy). -/
def missing_vars (env : String → Option String) : List String :=
  required_vars.filter (fun v =>
    match env v with
    | none => true
    | some s => s.isEmpty)

/-- External collaborators of one invocation of run_magicpod_tests:
the process environment, the outcome of magicpod.run_test, the outcome
of each polling fetch, whether the test plan file exists, its parsed
contents, and whether each per-item TestRail POST succeeds. -/
structure World where
  env : String → Option String
  runTest : Except Unit JsonVal
  fetch : Nat → FetchOutcome
  fileExists : Bool
  testplan : JsonVal
  netOk : Nat → Bool

/-- Number of HTTP POSTs performed by the reporting loop: the item
outcomes whose network call was reached. -/
def netCallsOfOutcomes (outs : List ItemOutcome) : Nat :=
  outs.countP (fun o =>
    match o with
    | .attempted _ true _ => true
    | _ => false)

/-- run_magicpod_tests (lines 113 to 268): validate the environment
before any network activity, start the batch run, poll for completion,
load the test plan, resolve the run id, then report per item. The
second component counts the network calls performed: the start call,
one per fetch attempt, and one per reached TestRail POST. -/
def run_magicpod_tests (w : World) : Except RunError RunSummary × Nat :=
  let missing := missing_vars w.env
  if missing.isEmpty then
    match w.runTest with
    | .error _ => (.error .startFailed, 1)
    | .ok batch_run =>
        match subscript batch_run "batch_run_number" with
        | .error e => (.error (.startKeyError e), 1)
        | .ok _ =>
            let pr := run_poll w.fetch
            let calls := 1 + pr.fetches
            if w.fileExists then
              match get_run_id_from_testplan w.testplan with
              | .error e => (.error (.resolveFailed e), calls)
              | .ok run_id =>
                  match pr.snapshot with
                  | none => (.error .unboundLocalResult, calls)
                  | some snap =>
                      match reportPhase w.netOk run_id snap with
                      | .error e => (.error e, calls)
                      | .ok summary =>
                          (.ok summary, calls + netCallsOfOutcomes summary.outcomes)
            else (.error .fileNotFound, calls)
  else (.error (.configError missing), 0)

/-- A snapshot with a non-terminal status, for concrete runs. -/
def snapRunning : JsonVal := .obj [("status", .str "running")]

/-- A snapshot with the terminal status succeeded, for concrete runs. -/
def snapSucceeded : JsonVal := .obj [("status", .str "succeeded")]

/-- A fetch sequence whose third attempt (index 2) is terminal. -/
def fetchTermAt2 : Nat → FetchOutcome :=
  fun k => if k = 2 then .ok snapSucceeded else .ok snapRunning

/-- A fetch sequence that always returns a running snapshot. -/
def fetchAllRunning : Nat → FetchOutcome := fun _ => .ok snapRunning

/-- A fetch sequence on which every attempt raises a transport
error. -/
def fetchAllErr : Nat → FetchOutcome := fun _ => .err

/-- A world with no environment variable set. -/
def wNoEnv : World :=
  { env := fun _ => none, runTest := .error (), fetch := fetchAllErr,
    fileExists := false, testplan := .null, netOk := fun _ => false }

/-- A world with every variable set, a started batch run, a resolvable
test plan, and a fetch sequence on which every attempt raises a
transport error. -/
def wAllErr : World :=
  { env := fun _ => some "x",
    runTest := .ok (.obj [("batch_run_number", .num 1)]),
    fetch := fetchAllErr, fileExists := true,
    testplan := .obj [("id", .num 7), ("name", .str "plan")],
    netOk := fun _ => true }

lemma entriesLoop_append_skip :
    ∀ (pre rest : List JsonVal),
    (∀ e ∈ pre, ∃ gs, e = JsonVal.obj gs ∧
        (lookupKey gs "runs" = none ∨ lookupKey gs "runs" = some (JsonVal.arr []))) →
    entriesLoop (pre ++ rest) = entriesLoop rest := by
  intro pre
  induction pre with
  | nil => intro rest _; rfl
  | cons p pre ih =>
      intro rest h
      obtain ⟨gs, rfl, hr⟩ := h p (List.mem_cons_self p pre)
      have hskip : entryRunId (JsonVal.obj gs) = .ok none := by
        rcases hr with hr | hr <;> simp [entryRunId, hr, truthy]
      simp only [List.cons_append, entriesLoop, hskip]
      exact ih rest (fun e he => h e (List.mem_cons_of_mem _ he))

lemma truthy_arr_append_cons (pre post : List JsonVal) (x : JsonVal) :
    truthy (JsonVal.arr (pre ++ x :: post)) = true := by
  cases pre <;> rfl

/-- C3: when the document is an object whose entries value is a
sequence containing an entry with a non-empty runs sequence whose
first element carries an id field, and every earlier entry is an
object whose runs sequence is absent or empty, the resolver returns
that id field, regardless of any other top-level fields such as id and
name. -/
theorem resolver_entries_first_nonempty_runs
    (fs : List (String × JsonVal)) (pre post : List JsonVal)
    (efs rfs : List (String × JsonVal)) (rs : List JsonVal) (v : JsonVal)
    (hentries : lookupKey fs "entries" = some (.arr (pre ++ .obj efs :: post)))
    (hpre : ∀ e ∈ pre, ∃ gs, e = JsonVal.obj gs ∧
        (lookupKey gs "runs" = none ∨ lookupKey gs "runs" = some (JsonVal.arr [])))
    (hruns : lookupKey efs "runs" = some (.arr (JsonVal.obj rfs :: rs)))
    (hid : lookupKey rfs "id" = some v) :
    get_run_id_from_testplan (.obj fs) = .ok v := by
  have hloop : entriesLoop (pre ++ JsonVal.obj efs :: post) = .ok (some v) := by
    rw [entriesLoop_append_skip pre _ hpre]
    simp [entriesLoop, entryRunId, hruns, hid, truthy]
  have hstep : entriesStep fs = .ok (some v) := by
    simp [entriesStep, hentries, truthy_arr_append_cons, hloop]
  simp [get_run_id_from_testplan, hstep]

/-- C3 witness: the two concrete documents of the spec. The first
skips the entry with empty runs and resolves to 42; the second
resolves to 1 although the document also carries top-level id and
name fields. -/
theorem resolver_entries_first_nonempty_runs_witness :
    get_run_id_from_testplan
      (.obj [("entries", .arr [.obj [("runs", .arr [])],
        .obj [("runs", .arr [.obj [("id", .num 42)]])]])]) = .ok (.num 42) ∧
    get_run_id_from_testplan
      (.obj [("entries", .arr [.obj [("runs", .arr [.obj [("id", .num 1)]])]]),
        ("id", .num 99), ("name", .str "x")]) = .ok (.num 1) := by
  constructor
  · exact resolver_entries_first_nonempty_runs _
      [JsonVal.obj [("runs", JsonVal.arr [])]] [] _ _ [] _
      rfl
      (by
        intro e he
        simp only [List.mem_singleton] at he
        exact ⟨_, he, Or.inr rfl⟩)
      rfl rfl
  · exact resolver_entries_first_nonempty_runs _ [] [] _ _ [] _
      rfl (by intro e he; cases he) rfl rfl

/-- C4: when the entries shape yields no identifier (and no error) and
the object carries both an id and a name field, the resolver returns
the id field. -/
theorem resolver_flat_id_fallback
    (fs : List (String × JsonVal)) (v nv : JsonVal)
    (hent : entriesStep fs = .ok none)
    (hid : lookupKey fs "id" = some v)
    (hname : lookupKey fs "name" = some nv) :
    get_run_id_from_testplan (.obj fs) = .ok v := by
  simp [get_run_id_from_testplan, hent, hid, hname]

/-- C4 witness: the document with id 7 and name "plan" and no entries
key resolves to 7. -/
theorem resolver_flat_id_fallback_witness :
    entriesStep [("id", JsonVal.num 7), ("name", JsonVal.str "plan")] = .ok none ∧
    get_run_id_from_testplan (.obj [("id", .num 7), ("name", .str "plan")]) =
      .ok (.num 7) :=
  ⟨rfl, resolver_flat_id_fallback _ _ _ rfl rfl rfl⟩

/-- C2 counterexample: on the document with a single entry whose runs
sequence holds one run without an id key, the resolver raises KeyError
rather than the ShapeMismatchError ValueError, so a missing key inside
a matched shape does crash with a different error. -/
theorem resolver_missing_id_keyerror_cex :
    get_run_id_from_testplan
      (.obj [("entries", .arr [.obj [("runs", .arr [.obj []])]])]) =
      .error (.keyError "id") ∧
    PyErr.keyError "id" ≠ PyErr.shapeMismatch :=
  ⟨rfl, by decide⟩

/-- C2 amended: when the entries shape is exhausted without yielding a
run id or an error, and the object lacks an id or a name key, the
resolver fails with the ShapeMismatchError ValueError; absence of the
candidate keys themselves never raises any other error. (The original
claim fails because a matched first run element without an id key
raises KeyError.) -/
theorem resolver_shape_mismatch_after_exhaustion
    (fs : List (String × JsonVal))
    (hent : entriesStep fs = .ok none)
    (hflat : lookupKey fs "id" = none ∨ lookupKey fs "name" = none) :
    get_run_id_from_testplan (.obj fs) = .error .shapeMismatch := by
  rcases hflat with h | h
  · simp [get_run_id_from_testplan, hent, h]
  · cases hl : lookupKey fs "id" <;>
      simp [get_run_id_from_testplan, hent, h, hl]

/-- C2 witness: the document with a single foo field fails with the
ShapeMismatchError ValueError. -/
theorem resolver_shape_mismatch_after_exhaustion_witness :
    entriesStep [("foo", JsonVal.str "bar")] = .ok none ∧
    get_run_id_from_testplan (.obj [("foo", .str "bar")]) =
      .error .shapeMismatch :=
  ⟨rfl, resolver_shape_mismatch_after_exhaustion _ rfl (Or.inl rfl)⟩

lemma pollFuel_first_terminal (fetch : Nat → FetchOutcome) :
    ∀ (j0 fuel w k : Nat) (last : Option JsonVal) (s : JsonVal),
    (∀ j < j0, terminalOutcome (fetch (k + j)) = false) →
    fetch (k + j0) = .ok s → snapTerminal s = true →
    w + j0 * 30 < 1800 → j0 < fuel →
    pollFuel fetch fuel w k last = ⟨some s, false, k + j0 + 1⟩ := by
  intro j0
  induction j0 with
  | zero =>
      intro fuel w k last s _ hfk hs hw hfuel
      obtain ⟨f, rfl⟩ : ∃ f, fuel = f + 1 := ⟨fuel - 1, by omega⟩
      rw [Nat.add_zero] at hfk
      simp only [pollFuel]
      rw [if_pos (by omega), hfk]
      simp [hs]
  | succ j ih =>
      intro fuel w k last s hnt hfk hs hw hfuel
      obtain ⟨f, rfl⟩ : ∃ f, fuel = f + 1 := ⟨fuel - 1, by omega⟩
      have h0 : terminalOutcome (fetch k) = false := by
        have := hnt 0 (by omega)
        rwa [Nat.add_zero] at this
      have hshift : ∀ i < j, terminalOutcome (fetch (k + 1 + i)) = false := by
        intro i hi
        have := hnt (i + 1) (by omega)
        rwa [show k + (i + 1) = k + 1 + i by omega] at this
      have hfk' : fetch (k + 1 + j) = .ok s := by
        rwa [show k + 1 + j = k + (j + 1) by omega]
      rw [show k + (j + 1) + 1 = k + 1 + j + 1 by omega]
      simp only [pollFuel]
      rw [if_pos (by omega)]
      cases hc : fetch k with
      | ok snap =>
          have hsnap : snapTerminal snap = false := by
            rw [hc] at h0
            simpa [terminalOutcome] using h0
          simp only [hsnap, Bool.false_eq_true, if_false]
          exact ih f (w + 30) (k + 1) (some snap) s hshift hfk' hs (by omega) (by omega)
      | err =>
          exact ih f (w + 30) (k + 1) last s hshift hfk' hs (by omega) (by omega)

lemma pollFuel_timeout (fetch : Nat → FetchOutcome) :
    ∀ (n fuel w k : Nat) (last : Option JsonVal),
    w + n * 30 = 1800 → n ≤ fuel →
    (∀ j < n, terminalOutcome (fetch (k + j)) = false) →
    pollFuel fetch fuel w k last = ⟨lastOf fetch k n last, true, k + n⟩ := by
  intro n
  induction n with
  | zero =>
      intro fuel w k last hw _ _
      cases fuel with
      | zero => simp [pollFuel, lastOf]
      | succ f =>
          simp only [pollFuel]
          rw [if_neg (by omega)]
          simp [lastOf]
  | succ n ih =>
      intro fuel w k last hw hfuel hnt
      obtain ⟨f, rfl⟩ : ∃ f, fuel = f + 1 := ⟨fuel - 1, by omega⟩
      have h0 : terminalOutcome (fetch k) = false := by
        have := hnt 0 (by omega)
        rwa [Nat.add_zero] at this
      have hshift : ∀ i < n, terminalOutcome (fetch (k + 1 + i)) = false := by
        intro i hi
        have := hnt (i + 1) (by omega)
        rwa [show k + (i + 1) = k + 1 + i by omega] at this
      rw [show k + (n + 1) = k + 1 + n by omega]
      simp only [pollFuel, lastOf]
      rw [if_pos (by omega)]
      cases hc : fetch k with
      | ok snap =>
          have hsnap : snapTerminal snap = false := by
            rw [hc] at h0
            simpa [terminalOutcome] using h0
          simp only [hsnap, Bool.false_eq_true, if_false]
          exact ih f (w + 30) (k + 1) (some snap) (by omega) (by omega) hshift
      | err =>
          exact ih f (w + 30) (k + 1) last (by omega) (by omega) hshift

lemma pollFuel_fetches_ge (fetch : Nat → FetchOutcome) :
    ∀ (fuel w k : Nat) (last : Option JsonVal),
    k ≤ (pollFuel fetch fuel w k last).fetches := by
  intro fuel
  induction fuel with
  | zero => intro w k last; exact Nat.le_refl k
  | succ f ih =>
      intro w k last
      simp only [pollFuel]
      by_cases hw : w < 1800
      · rw [if_pos hw]
        cases fetch k with
        | ok snap =>
            cases hs : snapTerminal snap with
            | true => simp [hs]
            | false =>
                simp only [hs, Bool.false_eq_true, if_false]
                exact Nat.le_trans (by omega) (ih (w + 30) (k + 1) (some snap))
        | err => exact Nat.le_trans (by omega) (ih (w + 30) (k + 1) last)
      · rw [if_neg hw]

lemma pollFuel_reaches (fetch : Nat → FetchOutcome) :
    ∀ (m fuel w k : Nat) (last : Option JsonVal),
    (∀ j < m, terminalOutcome (fetch (k + j)) = false) →
    w + m * 30 < 1800 → m < fuel →
    k + m + 1 ≤ (pollFuel fetch fuel w k last).fetches := by
  intro m
  induction m with
  | zero =>
      intro fuel w k last _ hw hfuel
      obtain ⟨f, rfl⟩ : ∃ f, fuel = f + 1 := ⟨fuel - 1, by omega⟩
      simp only [pollFuel]
      rw [if_pos (by omega)]
      cases fetch k with
      | ok snap =>
          cases hs : snapTerminal snap with
          | true => simp [hs]
          | false =>
              simp only [hs, Bool.false_eq_true, if_false]
              exact Nat.le_trans (by omega) (pollFuel_fetches_ge fetch f (w + 30) (k + 1) (some snap))
      | err =>
          exact Nat.le_trans (by omega) (pollFuel_fetches_ge fetch f (w + 30) (k + 1) last)
  | succ m ih =>
      intro fuel w k last hnt hw hfuel
      obtain ⟨f, rfl⟩ : ∃ f, fuel = f + 1 := ⟨fuel - 1, by omega⟩
      have h0 : terminalOutcome (fetch k) = false := by
        have := hnt 0 (by omega)
        rwa [Nat.add_zero] at this
      have hshift : ∀ i < m, terminalOutcome (fetch (k + 1 + i)) = false := by
        intro i hi
        have := hnt (i + 1) (by omega)
        rwa [show k + (i + 1) = k + 1 + i by omega] at this
      rw [show k + (m + 1) + 1 = k + 1 + m + 1 by omega]
      simp only [pollFuel]
      rw [if_pos (by omega)]
      cases hc : fetch k with
      | ok snap =>
          have hsnap : snapTerminal snap = false := by
            rw [hc] at h0
            simpa [terminalOutcome] using h0
          simp only [hsnap, Bool.false_eq_true, if_false]
          exact ih f (w + 30) (k + 1) (some snap) hshift (by omega) (by omega)
      | err =>
          exact ih f (w + 30) (k + 1) last hshift (by omega) (by omega)

lemma lastOf_all_err (fetch : Nat → FetchOutcome) :
    ∀ (n k : Nat) (last : Option JsonVal),
    (∀ j < n, fetch (k + j) = .err) →
    lastOf fetch k n last = last := by
  intro n
  induction n with
  | zero => intro k last _; rfl
  | succ n ih =>
      intro k last h
      have h0 : fetch k = .err := by
        have := h 0 (by omega)
        rwa [Nat.add_zero] at this
      simp only [lastOf, h0]
      exact ih (k + 1) last (fun j hj => by
        have := h (j + 1) (by omega)
        rwa [show k + (j + 1) = k + 1 + j by omega] at this)

lemma lastOf_last_ok (fetch : Nat → FetchOutcome) :
    ∀ (n k m : Nat) (s : JsonVal) (last : Option JsonVal),
    m < n → fetch (k + m) = .ok s →
    (∀ j, m < j → j < n → fetch (k + j) = .err) →
    lastOf fetch k n last = some s := by
  intro n
  induction n with
  | zero => intro k m s last h; exact absurd h (Nat.not_lt_zero m)
  | succ n ih =>
      intro k m s last hm hok herr
      cases m with
      | zero =>
          rw [Nat.add_zero] at hok
          simp only [lastOf, hok]
          exact lastOf_all_err fetch n (k + 1) (some s) (fun j hj => by
            have := herr (j + 1) (by omega) (by omega)
            rwa [show k + (j + 1) = k + 1 + j by omega] at this)
      | succ m' =>
          have hok' : fetch (k + 1 + m') = .ok s := by
            rwa [show k + 1 + m' = k + (m' + 1) by omega]
          have herr' : ∀ j, m' < j → j < n → fetch (k + 1 + j) = .err := by
            intro j h1 h2
            have := herr (j + 1) (by omega) (by omega)
            rwa [show k + (j + 1) = k + 1 + j by omega] at this
          cases hc : fetch k with
          | ok snap =>
              simp only [lastOf, hc]
              exact ih (k + 1) m' s (some snap) (by omega) hok' herr'
          | err =>
              simp only [lastOf, hc]
              exact ih (k + 1) m' s last (by omega) hok' herr'

/-- C1: for every fetch sequence whose first terminal snapshot arrives
at attempt k0 within the deadline (attempt k0 runs at wait_time 30 * k0,
below 1800, hence k0 below 60), the poller returns exactly that
snapshot, reports no timeout, and performs exactly k0 + 1 fetches, so
no further fetch happens after the terminal one. -/
theorem poller_returns_first_terminal (fetch : Nat → FetchOutcome)
    (k0 : Nat) (s : JsonVal)
    (hk : k0 < 60)
    (hfirst : ∀ j < k0, terminalOutcome (fetch j) = false)
    (hterm : fetch k0 = .ok s) (hs : snapTerminal s = true) :
    run_poll fetch = ⟨some s, false, k0 + 1⟩ := by
  have h := pollFuel_first_terminal fetch k0 61 0 0 none s
    (fun j hj => by simpa using hfirst j hj)
    (by simpa using hterm) hs (by omega) (by omega)
  simpa [run_poll] using h

/-- C1 witness: on the sequence that is terminal at attempt index 2
and running before, the poller returns the succeeded snapshot after
exactly 3 fetches. -/
theorem poller_returns_first_terminal_witness :
    (2 < 60 ∧ (∀ j < 2, terminalOutcome (fetchTermAt2 j) = false) ∧
      fetchTermAt2 2 = .ok snapSucceeded ∧ snapTerminal snapSucceeded = true) ∧
    run_poll fetchTermAt2 = ⟨some snapSucceeded, false, 3⟩ :=
  ⟨⟨by omega, by decide, rfl, rfl⟩,
    poller_returns_first_terminal fetchTermAt2 2 snapSucceeded
      (by omega) (by decide) rfl rfl⟩

/-- C5: when every fetch before the deadline returns a snapshot with a
non-terminal status, the poller reports the timeout condition (it does
not raise: the poll result is an ordinary value) after performing
exactly 60 fetches, which is the configured 1800 seconds divided by
the 30 second poll interval. -/
theorem poller_timeout_fetch_count (fetch : Nat → FetchOutcome)
    (h : ∀ k < 60, okNonTerminal (fetch k) = true) :
    (run_poll fetch).timedOut = true ∧ (run_poll fetch).fetches = 60 := by
  have hnt : ∀ j < 60, terminalOutcome (fetch (0 + j)) = false := by
    intro j hj
    have hok := h j hj
    rw [Nat.zero_add]
    cases hc : fetch j with
    | ok snap =>
        rw [hc] at hok
        simp only [okNonTerminal] at hok
        simpa [terminalOutcome] using hok
    | err => rfl
  have hrun : run_poll fetch = ⟨lastOf fetch 0 60 none, true, 0 + 60⟩ :=
    pollFuel_timeout fetch 60 61 0 0 none (by omega) (by omega) hnt
  rw [hrun]
  exact ⟨rfl, rfl⟩

/-- C5 witness: on the sequence that always returns a running
snapshot, the poller times out after exactly 60 fetches. -/
theorem poller_timeout_fetch_count_witness :
    (∀ k < 60, okNonTerminal (fetchAllRunning k) = true) ∧
    (run_poll fetchAllRunning).timedOut = true ∧
    (run_poll fetchAllRunning).fetches = 60 :=
  ⟨by decide, poller_timeout_fetch_count fetchAllRunning (by decide)⟩

/-- C6 counterexample: on the sequence where every attempt raises a
transport error, attempt index 59 raises an error and is performed
(the loop performs attempts 0 to 59, 60 fetches in total), yet no
further attempt occurs: the deadline ends the loop, so the claim that
the next fetch attempt still occurs after an error at every position
fails at position 59. -/
theorem poller_error_last_slot_cex :
    fetchAllErr 59 = .err ∧
    (run_poll fetchAllErr).fetches = 60 ∧
    ¬ 61 ≤ (run_poll fetchAllErr).fetches := by
  refine ⟨rfl, ?_, ?_⟩ <;> decide

/-- C6 amended: a transport error at attempt k never terminates the
loop early; whenever the loop reaches attempt k (no earlier attempt
was terminal), attempt k raises a transport error, and the next
attempt still lies before the deadline (k + 1 below 60), the poller
advances wait_time by one poll interval and attempt k + 1 still
occurs. At the final position before the deadline the loop instead
exits because of the deadline, not because of the error. -/
theorem poller_error_retries_next_attempt (fetch : Nat → FetchOutcome)
    (k : Nat) (hk : k + 1 < 60)
    (hreach : ∀ j < k, terminalOutcome (fetch j) = false)
    (herr : fetch k = .err) :
    k + 2 ≤ (run_poll fetch).fetches := by
  have hnt : ∀ j < k + 1, terminalOutcome (fetch (0 + j)) = false := by
    intro j hj
    rw [Nat.zero_add]
    rcases Nat.lt_or_ge j k with hjk | hjk
    · exact hreach j hjk
    · have : j = k := by omega
      rw [this, herr]
      rfl
  have h := pollFuel_reaches fetch (k + 1) 61 0 0 none hnt (by omega) (by omega)
  simpa [run_poll] using h

/-- C6 amended witness: on the all-error sequence, after the error at
attempt 0 the attempt at index 1 still occurs. -/
theorem poller_error_retries_next_attempt_witness :
    (0 + 1 < 60 ∧ fetchAllErr 0 = .err) ∧
    0 + 2 ≤ (run_poll fetchAllErr).fetches :=
  ⟨⟨by omega, rfl⟩,
    poller_error_retries_next_attempt fetchAllErr 0 (by omega) (by decide) rfl⟩

/-- C8: for every list of per-item results and every pattern of
per-item POST failures, the reporting loop accounts every item exactly
once: success_count plus error_count equals the number of items, and
every item produces an outcome (no failure aborts the remaining
items). -/
theorem report_partial_failure_isolated (netOk : Nat → Bool) :
    ∀ (i : Nat) (items : List JsonVal),
    (reportLoop netOk i items).1 + (reportLoop netOk i items).2.1 = items.length ∧
    (reportLoop netOk i items).2.2.length = items.length := by
  intro i items
  induction items generalizing i with
  | nil => simp [reportLoop]
  | cons item rest ih =>
      obtain ⟨h1, h2⟩ := ih (i + 1)
      cases hout : reportItem (netOk i) i item with
      | attempted cid net s =>
          cases s <;> simp [reportLoop, hout] <;> omega
      | itemError =>
          simp [reportLoop, hout]
          omega

lemma reportLoop_outcome_at (netOk : Nat → Bool) (item : JsonVal) (post : List JsonVal) :
    ∀ (pre : List JsonVal) (i : Nat),
    (reportLoop netOk i (pre ++ item :: post)).2.2.get? pre.length =
      some (reportItem (netOk (i + pre.length)) (i + pre.length) item) := by
  intro pre
  induction pre with
  | nil =>
      intro i
      simp only [List.nil_append, List.length_nil, Nat.add_zero]
      cases hout : reportItem (netOk i) i item with
      | attempted cid net s => cases s <;> simp [reportLoop, hout]
      | itemError => simp [reportLoop, hout]
  | cons p pre ih =>
      intro i
      simp only [List.cons_append, List.length_cons]
      have h := ih (i + 1)
      rw [show i + (pre.length + 1) = (i + 1) + pre.length by omega]
      cases hout : reportItem (netOk i) i p with
      | attempted cid net s =>
          cases s <;> simp only [reportLoop, hout, List.get?] <;> exact h
      | itemError =>
          simp only [reportLoop, hout, List.get?]
          exact h

/-- C9: an item at position pre.length whose test_case_id field is
absent or falsy is reported under the sequential case id
pre.length + 1, its 1-based position; the reporting loop invokes
add_result_for_case with exactly that identifier. -/
theorem report_missing_case_id_sequential (netOk : Nat → Bool)
    (pre post : List JsonVal) (fs : List (String × JsonVal))
    (h : truthy ((lookupKey fs "test_case_id").getD JsonVal.null) = false) :
    ∃ net ok,
      (reportLoop netOk 0 (pre ++ JsonVal.obj fs :: post)).2.2.get? pre.length =
        some (.attempted (.num ((pre.length : Int) + 1)) net ok) := by
  have hat := reportLoop_outcome_at netOk (JsonVal.obj fs) post pre 0
  rw [Nat.zero_add] at hat
  have hcid : caseIdOf fs pre.length = .num ((pre.length : Int) + 1) := by
    simp [caseIdOf, h]
  cases helaps : elapsedFmt ((lookupKey fs "elapsed_time").getD (.num 0)) with
  | error e =>
      refine ⟨false, false, ?_⟩
      rw [hat]
      simp [reportItem, helaps, hcid]
  | ok fstr =>
      refine ⟨true, netOk pre.length, ?_⟩
      rw [hat]
      simp [reportItem, helaps, hcid]

/-- C9 witness: a single result without a test_case_id field is
reported under case id 1. -/
theorem report_missing_case_id_sequential_witness :
    truthy ((lookupKey [("status", JsonVal.str "succeeded")] "test_case_id").getD
      JsonVal.null) = false ∧
    ∃ net ok,
      (reportLoop (fun _ => true) 0
        [JsonVal.obj [("status", JsonVal.str "succeeded")]]).2.2.get? 0 =
        some (.attempted (.num 1) net ok) :=
  ⟨by decide,
    report_missing_case_id_sequential (fun _ => true) [] []
      [("status", JsonVal.str "succeeded")] (by decide)⟩

/-- C7: when a required environment variable is unset or empty,
run_magicpod_tests fails at startup with the ValueError naming the
missing variables, and the network call counter is 0: no network call
has been performed. -/
theorem config_missing_fails_before_network (w : World)
    (h : missing_vars w.env ≠ []) :
    run_magicpod_tests w = (.error (.configError (missing_vars w.env)), 0) := by
  have hne : (missing_vars w.env).isEmpty = false := by
    cases hm : missing_vars w.env with
    | nil => exact absurd hm h
    | cons a l => rfl
  simp [run_magicpod_tests, hne]

/-- C7 witness: with no environment variable set, the run fails with a
configuration error after zero network calls. -/
theorem config_missing_fails_before_network_witness :
    missing_vars wNoEnv.env ≠ [] ∧
    run_magicpod_tests wNoEnv = (.error (.configError (missing_vars wNoEnv.env)), 0) :=
  ⟨by decide, config_missing_fails_before_network wNoEnv (by decide)⟩

/-- C10: when the setup phase succeeds and the poll deadline elapses,
first, if every fetch attempt of the whole polling window raised a
transport error, the run fails with the unbound-variable error when it
first reads the snapshot (after the test plan was loaded and resolved,
and before any result is processed); second, if the last snapshot
returned by any fetch arrived at attempt m and every later attempt
raised a transport error, the reporting phase consumes exactly that
snapshot. -/
theorem timeout_consumes_last_snapshot_or_unbound (w : World)
    (br n rid : JsonVal)
    (henv : missing_vars w.env = [])
    (hok : w.runTest = .ok br)
    (hsub : subscript br "batch_run_number" = .ok n)
    (hfile : w.fileExists = true)
    (hres : get_run_id_from_testplan w.testplan = .ok rid) :
    ((∀ k < 60, w.fetch k = .err) →
      (run_magicpod_tests w).1 = .error .unboundLocalResult) ∧
    (∀ m s, m < 60 → w.fetch m = .ok s →
      (∀ j, m < j → j < 60 → w.fetch j = .err) →
      (∀ k < 60, terminalOutcome (w.fetch k) = false) →
      (run_magicpod_tests w).1 = reportPhase w.netOk rid s) := by
  constructor
  · intro hall
    have hnt : ∀ j < 60, terminalOutcome (w.fetch (0 + j)) = false := by
      intro j hj
      rw [Nat.zero_add, hall j hj]
      rfl
    have hpoll : run_poll w.fetch = ⟨lastOf w.fetch 0 60 none, true, 0 + 60⟩ :=
      pollFuel_timeout w.fetch 60 61 0 0 none (by omega) (by omega) hnt
    have hnone : lastOf w.fetch 0 60 none = none :=
      lastOf_all_err w.fetch 60 0 none (fun j hj => by
        rw [Nat.zero_add]
        exact hall j hj)
    rw [hnone] at hpoll
    simp [run_magicpod_tests, henv, hok, hsub, hfile, hres, hpoll]
  · intro m s hm hfok herr hnt
    have hnt0 : ∀ j < 60, terminalOutcome (w.fetch (0 + j)) = false := by
      intro j hj
      rw [Nat.zero_add]
      exact hnt j hj
    have hpoll : run_poll w.fetch = ⟨lastOf w.fetch 0 60 none, true, 0 + 60⟩ :=
      pollFuel_timeout w.fetch 60 61 0 0 none (by omega) (by omega) hnt0
    have hlast : lastOf w.fetch 0 60 none = some s :=
      lastOf_last_ok w.fetch 60 0 m s none hm
        (by rw [Nat.zero_add]; exact hfok)
        (fun j h1 h2 => by rw [Nat.zero_add]; exact herr j h1 h2)
    rw [hlast] at hpoll
    simp only [run_magicpod_tests, henv, hok, hsub, hfile, hres, hpoll,
      List.isEmpty_nil, if_true]
    cases reportPhase w.netOk rid s <;> rfl

/-- C10 witness: in the world where every fetch raises a transport
error, the run fails with the unbound-variable error. -/
theorem timeout_consumes_last_snapshot_or_unbound_witness :
    (missing_vars wAllErr.env = [] ∧
      wAllErr.runTest = .ok (.obj [("batch_run_number", .num 1)]) ∧
      wAllErr.fileExists = true ∧
      get_run_id_from_testplan wAllErr.testplan = .ok (.num 7)) ∧
    (run_magicpod_tests wAllErr).1 = .error .unboundLocalResult :=
  ⟨⟨by decide, rfl, rfl, rfl⟩,
    (timeout_consumes_last_snapshot_or_unbound wAllErr
      (.obj [("batch_run_number", .num 1)]) (.num 1) (.num 7)
      (by decide) rfl rfl rfl rfl).1 (fun k _ => rfl)⟩
